import Mathlib

/-!
Shallow embedding of the `dart-api-dl` crate (xaynetwork/xayn_dart_api_dl):
the CObject tagged-union model, its owned builder/destructor, the
send/receive-port posting protocol, the lifecycle gate and the panic
containment guard, together with theorems settling the specification
claims about them.

Machine integers are modelled as `Int`/`Nat`; raw pointers are modelled by
the values they point to; foreign calls (the Dart VM) are modelled as
explicit outcome parameters.
-/

namespace DartApiDl

/-! ### Raw pseudo-enums (`dart-api-dl-sys`, bindgen `NewType` enum style)

Modelled from the spec: the numeric tag values below come from the vendored
`dart-src/dart_api_dl.h` header (not under `src/`); bindgen's
`EnumVariation::NewType` turns each C enum into a newtype around a C int
with one named constant per enumerator, consecutively numbered from 0. -/

/-- Raw `Dart_CObject_Type`: a newtype around a C int (bindgen NewType enum). -/
structure Dart_CObject_Type where
  val : Int
deriving DecidableEq, Repr

/-- Raw `Dart_TypedData_Type`: a newtype around a C int (bindgen NewType enum). -/
structure Dart_TypedData_Type where
  val : Int
deriving DecidableEq, Repr

def Dart_CObject_Type.Dart_CObject_kNull : Dart_CObject_Type := ⟨0⟩

def Dart_CObject_Type.Dart_CObject_kBool : Dart_CObject_Type := ⟨1⟩

def Dart_CObject_Type.Dart_CObject_kInt32 : Dart_CObject_Type := ⟨2⟩

def Dart_CObject_Type.Dart_CObject_kInt64 : Dart_CObject_Type := ⟨3⟩

def Dart_CObject_Type.Dart_CObject_kDouble : Dart_CObject_Type := ⟨4⟩

def Dart_CObject_Type.Dart_CObject_kString : Dart_CObject_Type := ⟨5⟩

def Dart_CObject_Type.Dart_CObject_kArray : Dart_CObject_Type := ⟨6⟩

def Dart_CObject_Type.Dart_CObject_kTypedData : Dart_CObject_Type := ⟨7⟩

def Dart_CObject_Type.Dart_CObject_kExternalTypedData : Dart_CObject_Type := ⟨8⟩

def Dart_CObject_Type.Dart_CObject_kSendPort : Dart_CObject_Type := ⟨9⟩

def Dart_CObject_Type.Dart_CObject_kCapability : Dart_CObject_Type := ⟨10⟩

def Dart_CObject_Type.Dart_CObject_kUnsupported : Dart_CObject_Type := ⟨11⟩

def Dart_CObject_Type.Dart_CObject_kNumberOfTypes : Dart_CObject_Type := ⟨12⟩

def Dart_TypedData_Type.Dart_TypedData_kByteData : Dart_TypedData_Type := ⟨0⟩

def Dart_TypedData_Type.Dart_TypedData_kInt8 : Dart_TypedData_Type := ⟨1⟩

def Dart_TypedData_Type.Dart_TypedData_kUint8 : Dart_TypedData_Type := ⟨2⟩

def Dart_TypedData_Type.Dart_TypedData_kUint8Clamped : Dart_TypedData_Type := ⟨3⟩

def Dart_TypedData_Type.Dart_TypedData_kInt16 : Dart_TypedData_Type := ⟨4⟩

def Dart_TypedData_Type.Dart_TypedData_kUint16 : Dart_TypedData_Type := ⟨5⟩

def Dart_TypedData_Type.Dart_TypedData_kInt32 : Dart_TypedData_Type := ⟨6⟩

def Dart_TypedData_Type.Dart_TypedData_kUint32 : Dart_TypedData_Type := ⟨7⟩

def Dart_TypedData_Type.Dart_TypedData_kInt64 : Dart_TypedData_Type := ⟨8⟩

def Dart_TypedData_Type.Dart_TypedData_kUint64 : Dart_TypedData_Type := ⟨9⟩

def Dart_TypedData_Type.Dart_TypedData_kFloat32 : Dart_TypedData_Type := ⟨10⟩

def Dart_TypedData_Type.Dart_TypedData_kFloat64 : Dart_TypedData_Type := ⟨11⟩

def Dart_TypedData_Type.Dart_TypedData_kInt32x4 : Dart_TypedData_Type := ⟨12⟩

def Dart_TypedData_Type.Dart_TypedData_kFloat32x4 : Dart_TypedData_Type := ⟨13⟩

def Dart_TypedData_Type.Dart_TypedData_kFloat64x2 : Dart_TypedData_Type := ⟨14⟩

def Dart_TypedData_Type.Dart_TypedData_kInvalid : Dart_TypedData_Type := ⟨15⟩

/-! ### Type-tag registry (`src/dart-api-dl/src/cobject/type_enums.rs`)

`impl_from_to_pseudo_enums!` expands to a `TryFrom<native>` that matches the
listed native constants in order (catch-all arm returns the unknown-tag
error carrying the raw value) and a total `From<enum>` back to the native
constant. -/

/-- `CObjectType`: supported types of `CObject`s. -/
inductive CObjectType where
  | Null
  | Bool
  | Int32
  | Int64
  | Double
  | String
  | Array
  | TypedData
  | ExternalTypedData
  | SendPort
  | Capability
deriving DecidableEq, Repr

/-- `UnknownCObjectType(pub Dart_CObject_Type)`. -/
structure UnknownCObjectType where
  raw : Dart_CObject_Type
deriving DecidableEq, Repr

/-- `TypedDataType`: the type of typed data in a `CObject`. -/
inductive TypedDataType where
  | ByteData
  | Int8
  | Uint8
  | Uint8Clamped
  | Int16
  | Uint16
  | Int32
  | Uint32
  | Int64
  | Uint64
  | Float32
  | Float64
  | Int32x4
  | Float32x4
  | Float64x2
deriving DecidableEq, Repr

/-- `UnknownTypedDataType(pub Dart_TypedData_Type)`. -/
structure UnknownTypedDataType where
  raw : Dart_TypedData_Type
deriving DecidableEq, Repr

/-- `impl TryFrom<Dart_CObject_Type> for CObjectType` (macro expansion). -/
def CObjectType.tryFrom (v : Dart_CObject_Type) : Except UnknownCObjectType CObjectType :=
  if v = .Dart_CObject_kNull then .ok .Null
  else if v = .Dart_CObject_kBool then .ok .Bool
  else if v = .Dart_CObject_kInt32 then .ok .Int32
  else if v = .Dart_CObject_kInt64 then .ok .Int64
  else if v = .Dart_CObject_kDouble then .ok .Double
  else if v = .Dart_CObject_kString then .ok .String
  else if v = .Dart_CObject_kArray then .ok .Array
  else if v = .Dart_CObject_kTypedData then .ok .TypedData
  else if v = .Dart_CObject_kExternalTypedData then .ok .ExternalTypedData
  else if v = .Dart_CObject_kSendPort then .ok .SendPort
  else if v = .Dart_CObject_kCapability then .ok .Capability
  else .error ⟨v⟩

/-- `impl From<CObjectType> for Dart_CObject_Type` (macro expansion). -/
def CObjectType.toRaw : CObjectType → Dart_CObject_Type
  | .Null => .Dart_CObject_kNull
  | .Bool => .Dart_CObject_kBool
  | .Int32 => .Dart_CObject_kInt32
  | .Int64 => .Dart_CObject_kInt64
  | .Double => .Dart_CObject_kDouble
  | .String => .Dart_CObject_kString
  | .Array => .Dart_CObject_kArray
  | .TypedData => .Dart_CObject_kTypedData
  | .ExternalTypedData => .Dart_CObject_kExternalTypedData
  | .SendPort => .Dart_CObject_kSendPort
  | .Capability => .Dart_CObject_kCapability

/-- `impl TryFrom<Dart_TypedData_Type> for TypedDataType` (macro expansion). -/
def TypedDataType.tryFrom (v : Dart_TypedData_Type) : Except UnknownTypedDataType TypedDataType :=
  if v = .Dart_TypedData_kByteData then .ok .ByteData
  else if v = .Dart_TypedData_kInt8 then .ok .Int8
  else if v = .Dart_TypedData_kUint8 then .ok .Uint8
  else if v = .Dart_TypedData_kUint8Clamped then .ok .Uint8Clamped
  else if v = .Dart_TypedData_kInt16 then .ok .Int16
  else if v = .Dart_TypedData_kUint16 then .ok .Uint16
  else if v = .Dart_TypedData_kInt32 then .ok .Int32
  else if v = .Dart_TypedData_kUint32 then .ok .Uint32
  else if v = .Dart_TypedData_kInt64 then .ok .Int64
  else if v = .Dart_TypedData_kUint64 then .ok .Uint64
  else if v = .Dart_TypedData_kFloat32 then .ok .Float32
  else if v = .Dart_TypedData_kFloat64 then .ok .Float64
  else if v = .Dart_TypedData_kInt32x4 then .ok .Int32x4
  else if v = .Dart_TypedData_kFloat32x4 then .ok .Float32x4
  else if v = .Dart_TypedData_kFloat64x2 then .ok .Float64x2
  else .error ⟨v⟩

/-- `impl From<TypedDataType> for Dart_TypedData_Type` (macro expansion). -/
def TypedDataType.toRaw : TypedDataType → Dart_TypedData_Type
  | .ByteData => .Dart_TypedData_kByteData
  | .Int8 => .Dart_TypedData_kInt8
  | .Uint8 => .Dart_TypedData_kUint8
  | .Uint8Clamped => .Dart_TypedData_kUint8Clamped
  | .Int16 => .Dart_TypedData_kInt16
  | .Uint16 => .Dart_TypedData_kUint16
  | .Int32 => .Dart_TypedData_kInt32
  | .Uint32 => .Dart_TypedData_kUint32
  | .Int64 => .Dart_TypedData_kInt64
  | .Uint64 => .Dart_TypedData_kUint64
  | .Float32 => .Dart_TypedData_kFloat32
  | .Float64 => .Dart_TypedData_kFloat64
  | .Int32x4 => .Dart_TypedData_kInt32x4
  | .Float32x4 => .Dart_TypedData_kFloat32x4
  | .Float64x2 => .Dart_TypedData_kFloat64x2

/-! ### Owned typed data (`src/dart-api-dl/src/cobject/rust_values.rs`)

`TypedData` is the Rust-side owned buffer; element payloads are modelled as
lists (`Int` for signed elements, `Nat` for unsigned ones, and `Nat` bit
patterns for the float kinds, whose bits the library never interprets). -/

/-- `TypedData`: owned typed data you can send to dart. -/
inductive TypedData where
  | ByteData (l : List Nat)
  | Int8 (l : List Int)
  | Uint8 (l : List Nat)
  | Uint8Clamped (l : List Nat)
  | Int16 (l : List Int)
  | Uint16 (l : List Nat)
  | Int32 (l : List Int)
  | Uint32 (l : List Nat)
  | Int64 (l : List Int)
  | Uint64 (l : List Nat)
  | Float32 (l : List Nat)
  | Float64 (l : List Nat)
  | Int32x4 (l : List (Int × Int × Int × Int))
  | Float32x4 (l : List (Nat × Nat × Nat × Nat))
  | Float64x2 (l : List (Nat × Nat))
deriving DecidableEq, Repr

/-- `TypedData::data_type`. -/
def TypedData.data_type : TypedData → TypedDataType
  | .ByteData _ => .ByteData
  | .Int8 _ => .Int8
  | .Uint8 _ => .Uint8
  | .Uint8Clamped _ => .Uint8Clamped
  | .Int16 _ => .Int16
  | .Uint16 _ => .Uint16
  | .Int32 _ => .Int32
  | .Uint32 _ => .Uint32
  | .Int64 _ => .Int64
  | .Uint64 _ => .Uint64
  | .Float32 _ => .Float32
  | .Float64 _ => .Float64
  | .Int32x4 _ => .Int32x4
  | .Float32x4 _ => .Float32x4
  | .Float64x2 _ => .Float64x2

/-- Number of elements of the underlying buffer (`data.len()`). -/
def TypedData.len : TypedData → Nat
  | .ByteData l => l.length
  | .Int8 l => l.length
  | .Uint8 l => l.length
  | .Uint8Clamped l => l.length
  | .Int16 l => l.length
  | .Uint16 l => l.length
  | .Int32 l => l.length
  | .Uint32 l => l.length
  | .Int64 l => l.length
  | .Uint64 l => l.length
  | .Float32 l => l.length
  | .Float64 l => l.length
  | .Int32x4 l => l.length
  | .Float32x4 l => l.length
  | .Float64x2 l => l.length

/-- Identity of the monomorphised `drop_boxed_peer::<T>` finalizer function
pointer recorded in `callback`. `box_u8` is `drop_boxed_peer::<Box<[u8]>>`
(used by the `ByteData` arm and, type-confusedly, by the `Uint8Clamped`
arm); `vec t` is `drop_boxed_peer::<Vec<...>>` from the per-`Vec` impls. -/
inductive FinalizerFn where
  | box_u8
  | vec (t : TypedDataType)
deriving DecidableEq, Repr

/-- `ExternalTypedData` payload (`_Dart_CObject__bindgen_ty_1__bindgen_ty_5`).

`data` models the buffer the raw `data` pointer points to; `peer` models the
boxed ownership handle the raw `peer` pointer points to. -/
structure ExternalTypedDataPayload where
  type_ : Dart_TypedData_Type
  length : Int
  data : TypedData
  peer : TypedData
  callback : Option FinalizerFn
deriving DecidableEq, Repr

/-- `<TypedData as CustomExternalTyped>::into_external_typed_data`, with the
per-`Vec<T>` impls of `CustomExternalTyped` inlined into the delegating arms.

Note the `Uint8Clamped` arm: like the source, it records
`TypedDataType::ByteData.into()` as the raw element-kind tag and the
`Box<[u8]>` finalizer, mirroring the `ByteData` arm.
(`data.len().try_into().unwrap()` cannot fail for a real allocation; the
model does not represent that panic.) -/
def TypedData.into_external_typed_data : TypedData → ExternalTypedDataPayload
  | .ByteData l =>
    { type_ := TypedDataType.ByteData.toRaw, length := (l.length : Int),
      data := .ByteData l, peer := .ByteData l, callback := some .box_u8 }
  | .Int8 l =>
    { type_ := TypedDataType.Int8.toRaw, length := (l.length : Int),
      data := .Int8 l, peer := .Int8 l, callback := some (.vec .Int8) }
  | .Uint8 l =>
    { type_ := TypedDataType.Uint8.toRaw, length := (l.length : Int),
      data := .Uint8 l, peer := .Uint8 l, callback := some (.vec .Uint8) }
  | .Uint8Clamped l =>
    { type_ := TypedDataType.ByteData.toRaw, length := (l.length : Int),
      data := .Uint8Clamped l, peer := .Uint8Clamped l, callback := some .box_u8 }
  | .Int16 l =>
    { type_ := TypedDataType.Int16.toRaw, length := (l.length : Int),
      data := .Int16 l, peer := .Int16 l, callback := some (.vec .Int16) }
  | .Uint16 l =>
    { type_ := TypedDataType.Uint16.toRaw, length := (l.length : Int),
      data := .Uint16 l, peer := .Uint16 l, callback := some (.vec .Uint16) }
  | .Int32 l =>
    { type_ := TypedDataType.Int32.toRaw, length := (l.length : Int),
      data := .Int32 l, peer := .Int32 l, callback := some (.vec .Int32) }
  | .Uint32 l =>
    { type_ := TypedDataType.Uint32.toRaw, length := (l.length : Int),
      data := .Uint32 l, peer := .Uint32 l, callback := some (.vec .Uint32) }
  | .Int64 l =>
    { type_ := TypedDataType.Int64.toRaw, length := (l.length : Int),
      data := .Int64 l, peer := .Int64 l, callback := some (.vec .Int64) }
  | .Uint64 l =>
    { type_ := TypedDataType.Uint64.toRaw, length := (l.length : Int),
      data := .Uint64 l, peer := .Uint64 l, callback := some (.vec .Uint64) }
  | .Float32 l =>
    { type_ := TypedDataType.Float32.toRaw, length := (l.length : Int),
      data := .Float32 l, peer := .Float32 l, callback := some (.vec .Float32) }
  | .Float64 l =>
    { type_ := TypedDataType.Float64.toRaw, length := (l.length : Int),
      data := .Float64 l, peer := .Float64 l, callback := some (.vec .Float64) }
  | .Int32x4 l =>
    { type_ := TypedDataType.Int32x4.toRaw, length := (l.length : Int),
      data := .Int32x4 l, peer := .Int32x4 l, callback := some (.vec .Int32x4) }
  | .Float32x4 l =>
    { type_ := TypedDataType.Float32x4.toRaw, length := (l.length : Int),
      data := .Float32x4 l, peer := .Float32x4 l, callback := some (.vec .Float32x4) }
  | .Float64x2 l =>
    { type_ := TypedDataType.Float64x2.toRaw, length := (l.length : Int),
      data := .Float64x2 l, peer := .Float64x2 l, callback := some (.vec .Float64x2) }

/-! ### The `Dart_CObject` tagged union

A `Dart_CObject` is a raw discriminant (`type_`) next to a union (`value`);
the two fields are independent: `set_to_null` rewrites only the
discriminant and leaves the union bits behind. The union is modelled as an
inductive recording which member was last written; reading a different
member is undefined behaviour in the source and is modelled as `none` in
the accessors below. The array member's element pointers are modelled by
the pointed-to objects (`values`) plus the `valuesNull` flag recording
whether the raw `values` pointer is null (locally built arrays always store
a non-null — possibly dangling — pointer). -/

mutual

inductive DartCObject where
  | mk (type_ : Dart_CObject_Type) (value : CUnion)

inductive CUnion where
  | as_bool (b : Bool)
  | as_int32 (v : Int)
  | as_int64 (v : Int)
  | as_double (bits : Nat)
  | as_string (bytes : List Nat)
  | as_array (length : Int) (valuesNull : Bool) (values : CObjList)
  | as_typed_data (type_ : Dart_TypedData_Type) (length : Int) (values : TypedData)
  | as_external_typed_data (etd : ExternalTypedDataPayload)
  | as_send_port (id : Int) (origin_id : Int)
  | as_capability (id : Int)

inductive CObjList where
  | nil
  | cons (head : DartCObject) (tail : CObjList)

end

def DartCObject.type_ : DartCObject → Dart_CObject_Type
  | .mk t _ => t

def DartCObject.value : DartCObject → CUnion
  | .mk _ v => v

def CObjList.length : CObjList → Nat
  | .nil => 0
  | .cons _ tl => tl.length + 1

def CObjList.toList : CObjList → List DartCObject
  | .nil => []
  | .cons hd tl => hd :: tl.toList

def CObjList.ofList : List DartCObject → CObjList
  | [] => .nil
  | hd :: tl => .cons hd (ofList tl)

/-! ### Ports: raw ids and wrappers (`src/dart-api-dl/src/ports.rs`,
identical in the older `src/dart-api-dl/src/port.rs`) -/

/-- `DartPortId` (= `Dart_Port_DL` = `i64`), a type alias. -/
abbrev DartPortId := Int

/-- Modelled from the spec: `ILLEGAL_PORT` is the sentinel "illegal port"
raw id from the vendored `dart-src` header (`(Dart_Port) 0`), re-exported by
`dart-api-dl-sys`; its numeric value is not load-bearing for any claim. -/
def ILLEGAL_PORT : DartPortId := (0 : Int)

/-- `SendPort { port, origin }`. -/
structure SendPort where
  port : DartPortId
  origin : DartPortId
deriving DecidableEq, Repr

/-- `SendPort::as_raw`. -/
def SendPort.as_raw (p : SendPort) : DartPortId × DartPortId :=
  (p.port, p.origin)

/-- `NativeRecvPort(SendPort)`. -/
structure NativeRecvPort where
  inner : SendPort
deriving DecidableEq, Repr

/-- `DartRuntime`: zero-sized proof-of-initialization marker. -/
structure DartRuntime where
deriving DecidableEq, Repr

/-- `DartRuntime::send_port_from_raw_with_origin`. -/
def DartRuntime.send_port_from_raw_with_origin (_rt : DartRuntime)
    (port origin : DartPortId) : Option SendPort :=
  if port ≠ ILLEGAL_PORT then some { port := port, origin := origin } else none

/-- `DartRuntime::send_port_from_raw`. -/
def DartRuntime.send_port_from_raw (rt : DartRuntime) (port : DartPortId) : Option SendPort :=
  rt.send_port_from_raw_with_origin port ILLEGAL_PORT

/-- `DartRuntime::native_recv_port_from_raw`. -/
def DartRuntime.native_recv_port_from_raw (_rt : DartRuntime)
    (port : DartPortId) : Option NativeRecvPort :=
  if port ≠ ILLEGAL_PORT then
    some { inner := { port := port, origin := ILLEGAL_PORT } }
  else none

/-! ### Owned builder (`src/dart-api-dl/src/cobject/owned.rs`)

`OwnedCObject` is a `repr(transparent)` wrapper around `CObject`, itself
transparent over `Dart_CObject`; the constructors below build the raw
struct directly. -/

/-- `NulError` from `CString::new` (first interior NUL position). -/
structure NulError where
  pos : Nat
deriving DecidableEq, Repr

/-- `isize::MAX` (array lengths are clamped to it instead of panicking). -/
def isizeMax : Int := 2 ^ 63 - 1

/-- `OwnedCObject::null`. -/
def OwnedCObject.null : DartCObject :=
  .mk .Dart_CObject_kNull (.as_bool false)

/-- `OwnedCObject::bool`. -/
def OwnedCObject.bool (val : Bool) : DartCObject :=
  .mk .Dart_CObject_kBool (.as_bool val)

/-- `OwnedCObject::int32`. -/
def OwnedCObject.int32 (val : Int) : DartCObject :=
  .mk .Dart_CObject_kInt32 (.as_int32 val)

/-- `OwnedCObject::int64`. -/
def OwnedCObject.int64 (val : Int) : DartCObject :=
  .mk .Dart_CObject_kInt64 (.as_int64 val)

/-- `OwnedCObject::double` (the `f64` is carried as its bit pattern). -/
def OwnedCObject.double (bits : Nat) : DartCObject :=
  .mk .Dart_CObject_kDouble (.as_double bits)

/-- `OwnedCObject::string`: fails with `NulError` if the UTF-8 bytes of the
input contain a `0` byte (`CString::new`); otherwise stores the bytes. -/
def OwnedCObject.string (val : List Nat) : Except NulError DartCObject :=
  if 0 ∈ val then .error ⟨val.indexOf 0⟩
  else .ok (.mk .Dart_CObject_kString (.as_string val))

/-- `OwnedCObject::string_lossy`: cuts the bytes off at the first `0`. -/
def OwnedCObject.string_lossy (val : List Nat) : DartCObject :=
  .mk .Dart_CObject_kString (.as_string (val.takeWhile (fun b => b ≠ 0)))

/-- `OwnedCObject::send_port`. -/
def OwnedCObject.send_port (port : SendPort) : DartCObject :=
  .mk .Dart_CObject_kSendPort (.as_send_port port.as_raw.1 port.as_raw.2)

/-- `OwnedCObject::capability`. -/
def OwnedCObject.capability (id : Int) : DartCObject :=
  .mk .Dart_CObject_kCapability (.as_capability id)

/-- `OwnedCObject::array`: repackages the boxed elements into the raw
pointer-array representation; `len.try_into().unwrap_or(isize::MAX)`
clamps instead of panicking, and `Box::into_raw` always yields a non-null
(for an empty slice: dangling) pointer, hence `valuesNull := false`. -/
def OwnedCObject.array (array : List DartCObject) : DartCObject :=
  let len : Int := if (array.length : Int) ≤ isizeMax then (array.length : Int) else isizeMax
  .mk .Dart_CObject_kArray (.as_array len false (CObjList.ofList array))

/-- `OwnedCObject::external_typed_data`. -/
def OwnedCObject.external_typed_data (data : TypedData) : DartCObject :=
  .mk .Dart_CObject_kExternalTypedData
    (.as_external_typed_data data.into_external_typed_data)

/-- `OwnedCObject::typed_data`: delegates to `external_typed_data`. -/
def OwnedCObject.typed_data (data : TypedData) : DartCObject :=
  OwnedCObject.external_typed_data data

/-! ### Read-only view operations
(`src/dart-api-dl/src/cobject/reference.rs`; the older
`src/dart-api-dl/src/cobject.rs` has the same shape for the parts used
here) -/

/-- `CObjectMut::set_to_null`: rewrites only the discriminant. -/
def CObjectMut.set_to_null : DartCObject → DartCObject
  | .mk _ v => .mk .Dart_CObject_kNull v

/-- `CObjectMut::type()`. -/
def CObjectMut.type_of (obj : DartCObject) : Except UnknownCObjectType CObjectType :=
  CObjectType.tryFrom obj.type_

/-- `CObjectMut::read_typed_data_type` reads the `as_typed_data.type_` union
field; the external-typed-data member is layout-compatible with the
typed-data member on this prefix, so both succeed. Reading any other member
is undefined behaviour, modelled as `none`. -/
def CObjectMut.read_typed_data_prefix : CUnion → Option (Dart_TypedData_Type × Int × TypedData)
  | .as_typed_data t l b => some (t, l, b)
  | .as_external_typed_data e => some (e.type_, e.length, e.data)
  | _ => none

/-- `CObjectMut::typed_data_type`: `Some` iff the discriminant is
`kTypedData` or `kExternalTypedData`; classifies the raw element-kind tag.
(UB from a mismatched union member is collapsed into `none`.) -/
def CObjectMut.typed_data_type (obj : DartCObject) :
    Option (Except UnknownTypedDataType TypedDataType) :=
  if obj.type_ = .Dart_CObject_kTypedData ∨ obj.type_ = .Dart_CObject_kExternalTypedData then
    (CObjectMut.read_typed_data_prefix obj.value).map (fun p => TypedDataType.tryFrom p.1)
  else none

/-! ### Owned destructor (`impl Drop for OwnedCObject` in `owned.rs`)

The destructor matches on the raw discriminant only. The observable effect
is modelled as the list of finalizer invocations; `none` models a panic
(`expect` on a null callback, or `unimplemented!` on a discriminant the
builder cannot produce, e.g. `kTypedData`). Note the `kArray` arm
reconstitutes a `Vec<*mut Dart_CObject>` — a vector of raw pointers —
whose drop frees only the outer pointer array and never recurses into the
pointed-to element objects. -/

/-- One finalizer invocation `callback(data, peer)`. -/
structure FinalizerCall where
  callback : FinalizerFn
  data : TypedData
  peer : TypedData
deriving DecidableEq, Repr

/-- `impl Drop for OwnedCObject`. -/
def OwnedCObject.dropOwned (obj : DartCObject) : Option (List FinalizerCall) :=
  let t := obj.type_
  if t = .Dart_CObject_kNull ∨ t = .Dart_CObject_kBool ∨ t = .Dart_CObject_kInt32 ∨
      t = .Dart_CObject_kInt64 ∨ t = .Dart_CObject_kDouble ∨ t = .Dart_CObject_kCapability ∨
      t = .Dart_CObject_kSendPort then
    some []
  else if t = .Dart_CObject_kString then
    match obj.value with
    | .as_string _ => some []
    | _ => none
  else if t = .Dart_CObject_kArray then
    match obj.value with
    | .as_array _ _ _ => some []
    | _ => none
  else if t = .Dart_CObject_kExternalTypedData then
    match obj.value with
    | .as_external_typed_data e =>
      match e.callback with
      | some cb => some [{ callback := cb, data := e.data, peer := e.peer }]
      | none => none
    | _ => none
  else none

/-! ### Post-send nulling (`CObjectMut::null_external_typed_objects` in
`reference.rs`)

The array arm goes through `prepare_dart_array_parts_mut` (`utils.rs`), which
aborts when `length < 0` or when `(length == 0) != ptr.is_null()`, and then
mutates the slice of exactly `length` elements in place (elements past
`length` are untouched; `length` exceeding the allocation is UB). Abort and
UB are both modelled as `none`. -/

mutual

/-- `CObjectMut::null_external_typed_objects`. -/
def CObjectMut.null_external_typed_objects (rt : DartRuntime) :
    DartCObject → Option DartCObject
  | .mk t v =>
    match CObjectType.tryFrom t with
    | .ok .ExternalTypedData => some (CObjectMut.set_to_null (.mk t v))
    | .ok .Array =>
      match v with
      | .as_array len vnull vs =>
        if len < 0 then none
        else if (decide (len = 0)) ≠ vnull then none
        else if len.toNat ≤ vs.length then
          match CObjectMut.null_external_typed_objects_slice rt len.toNat vs with
          | some vs' => some (.mk t (.as_array len vnull vs'))
          | none => none
        else none
      | _ => none
    | _ => some (.mk t v)

/-- Nulling of the first `n` elements of the raw element-pointer array (the
slice produced by `prepare_dart_array_parts_mut`); the tail past `n` is the
part of the allocation outside the slice and stays as it is. -/
def CObjectMut.null_external_typed_objects_slice (rt : DartRuntime) :
    Nat → CObjList → Option CObjList
  | 0, vs => some vs
  | _ + 1, .nil => some .nil
  | n + 1, .cons hd tl =>
    match CObjectMut.null_external_typed_objects rt hd with
    | some hd' =>
      match CObjectMut.null_external_typed_objects_slice rt n tl with
      | some tl' => some (.cons hd' tl')
      | none => none
    | none => none

end

mutual

/-- Modelled from the spec: "on success, if the value's variant is
ExternalTypedData, the local copy must be rewritten to Null ...; For Array
variants, the nulling of moved buffers must recurse into every array
element". A total specification-level transform: rewrite the discriminant
of every (arbitrarily deep) ExternalTypedData value to Null, recurse
through Array variants, and leave every other value untouched. -/
def specNullMoved : DartCObject → DartCObject
  | .mk t v =>
    match CObjectType.tryFrom t with
    | .ok .ExternalTypedData => .mk .Dart_CObject_kNull v
    | .ok .Array =>
      match v with
      | .as_array len vnull vs => .mk t (.as_array len vnull (specNullMovedList vs))
      | _ => .mk t v
    | _ => .mk t v

/-- `specNullMoved` on every element of an array payload. -/
def specNullMovedList : CObjList → CObjList
  | .nil => .nil
  | .cons hd tl => .cons (specNullMoved hd) (specNullMovedList tl)

end

mutual

/-- Well-formedness of the raw array bookkeeping a `Dart_CObject` tree needs
for the nulling recursion to neither abort nor hit UB: every node whose
discriminant classifies as Array stores the array union member, its
`length` field equals the element count, and its raw element pointer is
null exactly for length 0 (recursively). -/
def DartCObject.wfArrays : DartCObject → Bool
  | .mk t v =>
    match CObjectType.tryFrom t with
    | .ok .Array =>
      match v with
      | .as_array len vnull vs =>
        (len = (vs.length : Int) : Bool) && (vnull = decide (len = 0) : Bool) &&
          CObjList.wfArrays vs
      | _ => false
    | _ => true

/-- `DartCObject.wfArrays` on every element. -/
def CObjList.wfArrays : CObjList → Bool
  | .nil => true
  | .cons hd tl => hd.wfArrays && tl.wfArrays

end

/-! ### Posting (`src/dart-api-dl/src/ports.rs` and the older
`src/dart-api-dl/src/port.rs`)

The foreign posting primitive is modelled as an outcome parameter:
`none` = the `Dart_PostCObject_DL` function-pointer slot is uninitialized
(the `fpslot!` macro yields `UninitializedFunctionSlot`, converted by `?`),
`some b` = the foreign call returned `b`. -/

/-- `PostingMessageFailed` (`ports.rs`). -/
structure PostingMessageFailed where
deriving DecidableEq, Repr

/-- `PortPostMessageFailed` (the older `port.rs`). -/
structure PortPostMessageFailed where
deriving DecidableEq, Repr

/-- `SendPort::post_cobject_ref` (`ports.rs`): posts, and on success runs
`null_external_typed_objects`; the outer `Option` is the abort/UB of the
nulling recursion. On failure the object is returned unchanged. -/
def SendPort.post_cobject_ref (slot : Option Bool) (obj : DartCObject) :
    Option (Except PostingMessageFailed Unit × DartCObject) :=
  match slot with
  | some true =>
    (CObjectMut.null_external_typed_objects ⟨⟩ obj).map (fun obj' => (.ok (), obj'))
  | some false => some (.error ⟨⟩, obj)
  | none => some (.error ⟨⟩, obj)

/-- `SendPort::post_cobject` (`ports.rs`): `post_cobject_ref` on the owned
object, which is then dropped. Returns the post result, the finalizer calls
of the final drop, and the object state that was dropped. -/
def SendPort.post_cobject (slot : Option Bool) (obj : DartCObject) :
    Option (Except PostingMessageFailed Unit × List FinalizerCall) :=
  match SendPort.post_cobject_ref slot obj with
  | some (res, obj') =>
    match OwnedCObject.dropOwned obj' with
    | some calls => some (res, calls)
    | none => none
  | none => none

/-- `SendPort::post_cobject_mut` (the older `port.rs`): computes
`need_nulling` from the top-level discriminant only, posts, and on success
rewrites only a top-level ExternalTypedData discriminant to Null. -/
def SendPort.post_cobject_mut (slot : Option Bool) (obj : DartCObject) :
    Except PortPostMessageFailed Unit × DartCObject :=
  let need_nulling :=
    match CObjectType.tryFrom obj.type_ with
    | .ok .ExternalTypedData => true
    | _ => false
  match slot with
  | some true => (.ok (), if need_nulling then CObjectMut.set_to_null obj else obj)
  | some false => (.error ⟨⟩, obj)
  | none => (.error ⟨⟩, obj)

/-! ### `value_ref` and the typed-data view (`reference.rs`,
`rust_values.rs`) -/

/-- `TypedDataRef`: reference to typed data in a `CObject`. -/
inductive TypedDataRef where
  | ByteData (l : List Nat)
  | Int8 (l : List Int)
  | Uint8 (l : List Nat)
  | Uint8Clamped (l : List Nat)
  | Int16 (l : List Int)
  | Uint16 (l : List Nat)
  | Int32 (l : List Int)
  | Uint32 (l : List Nat)
  | Int64 (l : List Int)
  | Uint64 (l : List Nat)
  | Float32 (l : List Nat)
  | Float64 (l : List Nat)
  | Int32x4 (l : List (Int × Int × Int × Int))
  | Float32x4 (l : List (Nat × Nat × Nat × Nat))
  | Float64x2 (l : List (Nat × Nat))
deriving DecidableEq, Repr

/-- Byte-level reinterpretation of a buffer as `u8` elements, defined for
the single-byte element kinds (`i8` viewed as two's-complement bytes). -/
def TypedData.asU8Buffer : TypedData → Option (List Nat)
  | .ByteData l => some l
  | .Uint8 l => some l
  | .Uint8Clamped l => some l
  | .Int8 l => some (l.map (fun x => (x % 256).toNat))
  | _ => none

/-- Byte-level reinterpretation of a buffer as `i8` elements. -/
def TypedData.asI8Buffer : TypedData → Option (List Int)
  | .Int8 l => some l
  | .ByteData l => some (l.map (fun b => if b < 128 then (b : Int) else (b : Int) - 256))
  | .Uint8 l => some (l.map (fun b => if b < 128 then (b : Int) else (b : Int) - 256))
  | .Uint8Clamped l => some (l.map (fun b => if b < 128 then (b : Int) else (b : Int) - 256))
  | _ => none

/-- `TypedDataRef::from_raw(data_type, ptr, len)`: reinterprets the raw
buffer behind `ptr` as `len` elements of `data_type`. The model keeps the
buffer typed, so the cast is defined where the element layout agrees (all
single-byte kinds are inter-convertible); reading a buffer as a different
multi-byte element kind is not modelled (`none`) — no object built by this
library's constructors performs such a read. -/
def TypedDataRef.from_raw (data_type : TypedDataType) (data : TypedData) (len : Nat) :
    Option TypedDataRef :=
  match data_type with
  | .ByteData => data.asU8Buffer.bind fun l =>
      if len ≤ l.length then some (.ByteData (l.take len)) else none
  | .Int8 => data.asI8Buffer.bind fun l =>
      if len ≤ l.length then some (.Int8 (l.take len)) else none
  | .Uint8 => data.asU8Buffer.bind fun l =>
      if len ≤ l.length then some (.Uint8 (l.take len)) else none
  | .Uint8Clamped => data.asU8Buffer.bind fun l =>
      if len ≤ l.length then some (.Uint8Clamped (l.take len)) else none
  | .Int16 =>
    match data with
    | .Int16 l => if len ≤ l.length then some (.Int16 (l.take len)) else none
    | _ => none
  | .Uint16 =>
    match data with
    | .Uint16 l => if len ≤ l.length then some (.Uint16 (l.take len)) else none
    | _ => none
  | .Int32 =>
    match data with
    | .Int32 l => if len ≤ l.length then some (.Int32 (l.take len)) else none
    | _ => none
  | .Uint32 =>
    match data with
    | .Uint32 l => if len ≤ l.length then some (.Uint32 (l.take len)) else none
    | _ => none
  | .Int64 =>
    match data with
    | .Int64 l => if len ≤ l.length then some (.Int64 (l.take len)) else none
    | _ => none
  | .Uint64 =>
    match data with
    | .Uint64 l => if len ≤ l.length then some (.Uint64 (l.take len)) else none
    | _ => none
  | .Float32 =>
    match data with
    | .Float32 l => if len ≤ l.length then some (.Float32 (l.take len)) else none
    | _ => none
  | .Float64 =>
    match data with
    | .Float64 l => if len ≤ l.length then some (.Float64 (l.take len)) else none
    | _ => none
  | .Int32x4 =>
    match data with
    | .Int32x4 l => if len ≤ l.length then some (.Int32x4 (l.take len)) else none
    | _ => none
  | .Float32x4 =>
    match data with
    | .Float32x4 l => if len ≤ l.length then some (.Float32x4 (l.take len)) else none
    | _ => none
  | .Float64x2 =>
    match data with
    | .Float64x2 l => if len ≤ l.length then some (.Float64x2 (l.take len)) else none
    | _ => none

/-- First `n` elements of a raw element-pointer array. -/
def CObjList.take : Nat → CObjList → CObjList
  | 0, _ => .nil
  | _ + 1, .nil => .nil
  | n + 1, .cons hd tl => .cons hd (CObjList.take n tl)

/-- `CObjectValuesRef`: a reference to the data in a `CObject` (copy kinds
are carried by value). -/
inductive CObjectValuesRef where
  | Null
  | Bool (b : Bool)
  | Int32 (v : Int)
  | Int64 (v : Int)
  | Double (bits : Nat)
  | String (s : List Nat)
  | Array (values : CObjList)
  | TypedData (data : Except UnknownTypedDataType TypedDataRef) (external_typed : Bool)
  | SendPort (port : Option SendPort)
  | Capability (id : Int)

/-- The shared `TypedData | ExternalTypedData` arm of `value_ref`: reads the
layout-shared prefix, classifies the element kind (unknown kinds produce
`Ok(TypedData { data: Err(..) .. })` without touching the buffer), and
otherwise builds the view through `prepare_dart_array_parts` + `from_raw`.
`prepare_dart_array_parts` aborts for a negative length and for a zero
length with a non-null pointer; buffers recorded by this library's
constructors are never null, so the zero-length abort is the modelled
behaviour (`none`). -/
def CObjectMut.typed_data_arm (external : Bool) (v : CUnion) :
    Option (Except UnknownCObjectType CObjectValuesRef) :=
  match CObjectMut.read_typed_data_prefix v with
  | some (tdt, len, buf) =>
    match TypedDataType.tryFrom tdt with
    | .error e => some (.ok (.TypedData (.error e) external))
    | .ok dt =>
      if len < 0 then none
      else if len = 0 then none
      else if len.toNat ≤ buf.len then
        match TypedDataRef.from_raw dt buf len.toNat with
        | some r => some (.ok (.TypedData (.ok r) external))
        | none => none
      else none
  | none => none

/-- `CObjectMut::value_ref`: the canonical per-variant read path all the
`as_*` accessors are defined in terms of. The outer `Option` models
aborts (`prepare_dart_array_parts`) and the UB of reading a union member
that was not the one written. -/
def CObjectMut.value_ref (rt : DartRuntime) (obj : DartCObject) :
    Option (Except UnknownCObjectType CObjectValuesRef) :=
  match CObjectType.tryFrom obj.type_ with
  | .error e => some (.error e)
  | .ok .Null => some (.ok .Null)
  | .ok .Bool =>
    match obj.value with
    | .as_bool b => some (.ok (.Bool b))
    | _ => none
  | .ok .Int32 =>
    match obj.value with
    | .as_int32 v => some (.ok (.Int32 v))
    | _ => none
  | .ok .Int64 =>
    match obj.value with
    | .as_int64 v => some (.ok (.Int64 v))
    | _ => none
  | .ok .Double =>
    match obj.value with
    | .as_double d => some (.ok (.Double d))
    | _ => none
  | .ok .String =>
    match obj.value with
    | .as_string bytes =>
      some (.ok (.String (bytes.takeWhile (fun b => b ≠ 0))))
    | _ => none
  | .ok .Array =>
    match obj.value with
    | .as_array len vnull vs =>
      if len < 0 then none
      else if decide (len = 0) ≠ vnull then none
      else if len.toNat ≤ vs.length then some (.ok (.Array (CObjList.take len.toNat vs)))
      else none
    | _ => none
  | .ok .TypedData => CObjectMut.typed_data_arm false obj.value
  | .ok .ExternalTypedData => CObjectMut.typed_data_arm true obj.value
  | .ok .SendPort =>
    match obj.value with
    | .as_send_port id origin =>
      some (.ok (.SendPort (rt.send_port_from_raw_with_origin id origin)))
    | _ => none
  | .ok .Capability =>
    match obj.value with
    | .as_capability id => some (.ok (.Capability id))
    | _ => none

/-- `CObjectMut::as_string`. -/
def CObjectMut.as_string (rt : DartRuntime) (obj : DartCObject) : Option (List Nat) :=
  match CObjectMut.value_ref rt obj with
  | some (.ok (.String s)) => some s
  | _ => none

/-- `CObjectMut::as_typed_data`. -/
def CObjectMut.as_typed_data (rt : DartRuntime) (obj : DartCObject) :
    Option ((Except UnknownTypedDataType TypedDataRef) × Bool) :=
  match CObjectMut.value_ref rt obj with
  | some (.ok (.TypedData data external_typed)) => some (data, external_typed)
  | _ => none

/-! ### Lifecycle gate (`src/dart-api-dl/src/lifecycle.rs`)

The `OnceCell` is modelled as explicit state: `none` = the cell is empty
(no initialization attempt has happened), `some r` = the cell stores the
result of the one attempt. The foreign `Dart_InitializeApiDL` return code
is an outcome parameter. -/

/-- `InitializationFailed`. -/
inductive InitializationFailed where
  | InitNotYetCalled
  | InitFailed
deriving DecidableEq, Repr

/-- State of the `INIT_ONCE : OnceCell<Result<DartRuntime, InitializationFailed>>`. -/
def InitState := Option (Except InitializationFailed DartRuntime)

/-- `initialize_dart_api_dl`: `INIT_ONCE.get_or_init(..)` — returns the
stored result when present, otherwise performs the one foreign call and
stores its outcome. The `Bool` records whether the foreign
`Dart_InitializeApiDL` call was performed. -/
def initialize_dart_api_dl (ret : Int) (st : InitState) :
    Except InitializationFailed DartRuntime × InitState × Bool :=
  match st with
  | some r => (r, some r, false)
  | none =>
    let r : Except InitializationFailed DartRuntime :=
      if ret = 0 then .ok ⟨⟩ else .error .InitFailed
    (r, some r, true)

/-- `DartRuntime::instance`: `INIT_ONCE.get().cloned().unwrap_or(Err(InitNotYetCalled))`. -/
def DartRuntime.instance (st : InitState) : Except InitializationFailed DartRuntime :=
  match st with
  | some r => r
  | none => .error .InitNotYetCalled

/-- States of the once-cell that actually arise: empty, or filled by one
`initialize_dart_api_dl` attempt. -/
def InitState.Reachable (st : InitState) : Prop :=
  st = none ∨ ∃ ret : Int, st = (initialize_dart_api_dl ret none).2.1

/-! ### Receive-port dispatch and close (`ports.rs`; the older `port.rs`
uses `forget(port)` directly instead of `port.leak()`, with the same
effect) -/

/-- Foreign calls visible in the dispatch/drop traces. -/
inductive ForeignCall where
  | closeNativePort (port : DartPortId)
  | other (tag : Nat)
deriving DecidableEq, Repr

/-- `NativeRecvPort::leak`: copies out the `SendPort` and `forget`s the
handle — no foreign call happens. -/
def NativeRecvPort.leak (p : NativeRecvPort) : SendPort × List ForeignCall :=
  (p.inner, [])

/-- `impl Drop for NativeRecvPort`: calls `Dart_CloseNativePort_DL` with the
raw port id, ignoring the result; with an uninitialized slot no foreign
call happens (the error is discarded). -/
def NativeRecvPort.drop_calls (slotAvailable : Bool) (p : NativeRecvPort) : List ForeignCall :=
  if slotAvailable then [.closeNativePort p.inner.as_raw.1] else []

/-- The `extern "C" handle_message` dispatch wrapper registered by
`native_recv_port`: recovers the runtime and the receive-port handle from
the raw destination id, runs the guarded user handler (whose own foreign
calls are the `handlerCalls` parameter), and then leaks the reconstructed
handle. Returns the foreign calls performed during dispatch. -/
def handle_message (st : InitState) (ourself : DartPortId)
    (handlerCalls : List ForeignCall) : List ForeignCall :=
  match DartRuntime.instance st with
  | .ok rt =>
    match rt.native_recv_port_from_raw ourself with
    | some port => handlerCalls ++ (NativeRecvPort.leak port).2
    | none => []
  | .error _ => []

/-! ### Panic containment (`src/dart-api-dl/src/panic.rs`)

A computation that may panic is modelled as `Except PanicPayload α`; the
payload distinguishes the three downcasts the source performs. A caught
panic is inspected by matching — `std::panic::catch_unwind` never itself
panics — while the guard's result type retains `.error` for a panic that
would propagate out of the guard. -/

/-- Downcast classes of a panic payload: `String`, `&'static str`, or
anything else. -/
inductive PanicPayload where
  | ofString (bytes : List Nat)
  | ofStaticStr (bytes : List Nat)
  | other
deriving DecidableEq, Repr

/-- UTF-8 bytes of the fixed fallback diagnostic `"panic of unsupported type"`. -/
def PANIC_FALLBACK_MSG : List Nat :=
  [112, 97, 110, 105, 99, 32, 111, 102, 32, 117, 110, 115, 117, 112, 112,
    111, 114, 116, 101, 100, 32, 116, 121, 112, 101]

/-- `catch_unwind_panic_as_cobject(obj, func, on_panic)`: runs `func`
inside `catch_unwind`; on panic, converts the payload to a string-typed
`CObject` (with the fixed fallback for unrecognised payload types) and
passes it to `on_panic`, itself inside `catch_unwind` with the result
discarded. Returns `ok` with the object `on_panic` was invoked with (if
any); `.error` would be a panic escaping the guard. -/
def catch_unwind_panic_as_cobject (obj : DartCObject)
    (func : DartCObject → Except PanicPayload Unit)
    (on_panic : DartCObject → DartCObject → Except PanicPayload Unit) :
    Except PanicPayload (Option DartCObject) :=
  match func obj with
  | .ok () => .ok none
  | .error err =>
    let errObj :=
      match err with
      | .ofString s => OwnedCObject.string_lossy s
      | .ofStaticStr s => OwnedCObject.string_lossy s
      | .other => OwnedCObject.string_lossy PANIC_FALLBACK_MSG
    match on_panic obj errObj with
    | .ok () => .ok (some errObj)
    | .error _ => .ok (some errObj)

/-! ### Concrete example objects used by counterexamples and witnesses -/

/-- A locally built external-typed-data object over the buffer `[1u8]`. -/
def exampleEtd : DartCObject :=
  OwnedCObject.external_typed_data (TypedData.Uint8 [1])

/-- `array [ array [ exampleEtd ], int64 7 ]`: an array containing an array
containing an ExternalTypedData value, next to a non-external sibling. -/
def exampleNested : DartCObject :=
  OwnedCObject.array [OwnedCObject.array [exampleEtd], OwnedCObject.int64 7]

/-- Probe: the union's array elements (empty for non-array members). -/
def DartCObject.arrayElems : DartCObject → CObjList
  | .mk _ (.as_array _ _ vs) => vs
  | _ => .nil

/-- Probe: head of an element list (`OwnedCObject.null` as fallback). -/
def CObjList.headD : CObjList → DartCObject
  | .cons hd _ => hd
  | .nil => OwnedCObject.null

/-! ### Helper lemmas: the nulling recursion refines the spec transform -/

/-- Size-bounded combined statement for the object/element-list mutual
recursion, proved by strong induction on the size bound. -/
theorem null_eq_spec_aux (n : Nat) (rt : DartRuntime) :
    (∀ obj : DartCObject, sizeOf obj ≤ n → obj.wfArrays = true →
        CObjectMut.null_external_typed_objects rt obj = some (specNullMoved obj)) ∧
    (∀ l : CObjList, sizeOf l ≤ n → l.wfArrays = true →
        CObjectMut.null_external_typed_objects_slice rt l.length l =
          some (specNullMovedList l)) := by
  induction n using Nat.strong_induction_on with
  | _ n IH =>
    constructor
    · intro obj hsz h
      cases obj with
      | mk t v =>
        cases ht : CObjectType.tryFrom t with
        | error e =>
          cases v <;>
            simp [CObjectMut.null_external_typed_objects, specNullMoved, ht]
        | ok k =>
          cases k
          case ExternalTypedData =>
            cases v <;>
              simp [CObjectMut.null_external_typed_objects, specNullMoved, ht,
                CObjectMut.set_to_null]
          case Array =>
            cases v
            case as_array len vnull vs =>
              simp only [DartCObject.wfArrays, ht, Bool.and_eq_true,
                decide_eq_true_eq] at h
              obtain ⟨⟨h1, h2⟩, h3⟩ := h
              have hlen0 : ¬ (len < 0) := by omega
              have hne : ¬ (decide (len = 0) ≠ vnull) := by simp [h2]
              have htn : len.toNat = vs.length := by omega
              have hle : len.toNat ≤ vs.length := le_of_eq htn
              have hvs : sizeOf vs < n := by
                have : sizeOf vs < sizeOf (DartCObject.mk t (.as_array len vnull vs)) := by
                  simp
                  omega
                omega
              simp only [CObjectMut.null_external_typed_objects, specNullMoved, ht]
              rw [if_neg hlen0, if_neg hne, if_pos hle, htn,
                (IH (sizeOf vs) hvs).2 vs le_rfl h3]
            all_goals simp [DartCObject.wfArrays, ht] at h
          all_goals
            cases v <;>
              simp [CObjectMut.null_external_typed_objects, specNullMoved, ht]
    · intro l hsz h
      cases l with
      | nil => rfl
      | cons hd tl =>
        simp only [CObjList.wfArrays, Bool.and_eq_true] at h
        obtain ⟨hhd, htl⟩ := h
        have hhd' : sizeOf hd < n := by
          have : sizeOf hd < sizeOf (CObjList.cons hd tl) := by
            simp
            omega
          omega
        have htl' : sizeOf tl < n := by
          have : sizeOf tl < sizeOf (CObjList.cons hd tl) := by simp
          omega
        simp only [CObjList.length, CObjectMut.null_external_typed_objects_slice,
          specNullMovedList]
        rw [(IH (sizeOf hd) hhd').1 hd le_rfl hhd,
          (IH (sizeOf tl) htl').2 tl le_rfl htl]

/-- Under the array well-formedness invariant, the in-place nulling
recursion of `reference.rs` computes exactly the specification-level
transform `specNullMoved`. -/
theorem null_external_typed_objects_eq_spec (rt : DartRuntime) (obj : DartCObject)
    (h : obj.wfArrays = true) :
    CObjectMut.null_external_typed_objects rt obj = some (specNullMoved obj) :=
  (null_eq_spec_aux (sizeOf obj) rt).1 obj le_rfl h

/-! ### Claim theorems -/

/-- C1 (amended): for every owned foreign object with well-formed array
bookkeeping, a successful post through `SendPort::post_cobject_ref` (the
`ports.rs` pipeline, also used by `post_cobject`) rewrites the discriminant
of every ExternalTypedData value nested at any depth inside Array variants
to Null and leaves everything else unchanged — the result is exactly the
specification transform `specNullMoved`. (The older `port.rs`
`post_cobject_mut` nulls only a top-level ExternalTypedData discriminant;
see the counterexample.) -/
theorem C1_post_cobject_ref_nulls_nested_external_typed_data
    (obj : DartCObject) (h : obj.wfArrays = true) :
    SendPort.post_cobject_ref (some true) obj = some (.ok (), specNullMoved obj) := by
  simp [SendPort.post_cobject_ref, null_external_typed_objects_eq_spec ⟨⟩ obj h]

/-- C1 witness: the amended theorem applied to an array containing an array
containing an ExternalTypedData value next to an `int64` sibling; the
innermost discriminant is rewritten to Null, the sibling stays intact. -/
theorem C1_witness :
    DartCObject.wfArrays exampleNested = true ∧
    SendPort.post_cobject_ref (some true) exampleNested =
      some (.ok (), specNullMoved exampleNested) ∧
    specNullMoved exampleNested =
      OwnedCObject.array
        [OwnedCObject.array [CObjectMut.set_to_null exampleEtd], OwnedCObject.int64 7] :=
  ⟨by decide,
    C1_post_cobject_ref_nulls_nested_external_typed_data exampleNested (by decide),
    by rfl⟩

/-- C1 counterexample: posting the nested object through the older
`SendPort::post_cobject_mut` (`port.rs`) succeeds, yet the object is
returned completely unchanged — the innermost ExternalTypedData
discriminant is still `kExternalTypedData`, not `kNull`, contradicting the
claim for `post_cobject_mut`. -/
theorem C1_counterexample :
    (SendPort.post_cobject_mut (some true) exampleNested).1 = .ok () ∧
    (SendPort.post_cobject_mut (some true) exampleNested).2 = exampleNested ∧
    ((exampleNested.arrayElems.headD).arrayElems.headD).type_ =
      .Dart_CObject_kExternalTypedData ∧
    Dart_CObject_Type.Dart_CObject_kExternalTypedData ≠ .Dart_CObject_kNull :=
  ⟨rfl, rfl, rfl, by decide⟩

/-- C2: dropping an ExternalTypedData owned object that was never sent
invokes the recorded finalizer callback exactly once, with the recorded
data and peer pointers; a successful post rewrites the discriminant to
Null, and dropping the posted object invokes no finalizer. -/
theorem C2_single_destruction (d : TypedData) :
    (∃ cb, d.into_external_typed_data.callback = some cb ∧
      OwnedCObject.dropOwned (OwnedCObject.external_typed_data d) =
        some [{ callback := cb, data := d.into_external_typed_data.data,
                peer := d.into_external_typed_data.peer }]) ∧
    SendPort.post_cobject_ref (some true) (OwnedCObject.external_typed_data d) =
      some (.ok (), CObjectMut.set_to_null (OwnedCObject.external_typed_data d)) ∧
    OwnedCObject.dropOwned
        (CObjectMut.set_to_null (OwnedCObject.external_typed_data d)) =
      some [] := by
  refine ⟨?_, ?_, ?_⟩
  · cases d <;> exact ⟨_, rfl, rfl⟩
  · rfl
  · rfl

/-- C3 (divergence at the failing input): constructing external typed data
from `TypedData::Uint8Clamped` records the `ByteData` raw tag, so the
read-back element kind is `ByteData`, not the `Uint8Clamped` that
`data_type()` carries; the typed-data view likewise reports the `ByteData`
variant. -/
theorem C3_uint8clamped_tag_mismatch :
    CObjectMut.typed_data_type
        (OwnedCObject.external_typed_data (TypedData.Uint8Clamped [7])) =
      some (.ok .ByteData) ∧
    (TypedData.Uint8Clamped [7]).data_type = .Uint8Clamped ∧
    TypedDataType.ByteData ≠ TypedDataType.Uint8Clamped ∧
    CObjectMut.as_typed_data ⟨⟩
        (OwnedCObject.external_typed_data (TypedData.Uint8Clamped [7])) =
      some (.ok (.ByteData [7]), true) :=
  ⟨rfl, rfl, by decide, rfl⟩

/-- C4: when the post fails — the foreign primitive reports failure or the
function-pointer slot is uninitialized — both posting pipelines return the
error and leave the object completely unchanged (no discriminant rewritten),
still owned by the caller. -/
theorem C4_failed_post_leaves_object_unchanged (slot : Option Bool) (obj : DartCObject)
    (h : slot ≠ some true) :
    SendPort.post_cobject_ref slot obj = some (.error ⟨⟩, obj) ∧
    SendPort.post_cobject_mut slot obj = (.error ⟨⟩, obj) := by
  match slot with
  | some true => exact absurd rfl h
  | some false => exact ⟨rfl, rfl⟩
  | none => exact ⟨rfl, rfl⟩

/-- A `takeWhile` keeping non-NUL bytes returns the whole list when no NUL
byte occurs in it. -/
theorem takeWhile_ne_zero_of_not_mem (s : List Nat) (h : 0 ∉ s) :
    s.takeWhile (fun b => b ≠ 0) = s :=
  List.takeWhile_eq_self_iff.mpr (fun x hx => by
    simp only [ne_eq, decide_eq_true_eq]
    exact fun hx0 => h (hx0 ▸ hx))

/-- C5: the panic-containment guard converts a `String` or `&'static str`
panic payload into the string-typed object built by `string_lossy` from the
panic message (the fixed fallback text for any other payload type), passes
it to `on_panic`, discards a panic of `on_panic` itself, and never lets any
panic escape; a NUL-free message reads back verbatim from the diagnostic
object, whose discriminant is the String kind. -/
theorem C5_panic_containment :
    (∀ obj s p, catch_unwind_panic_as_cobject obj (fun _ => .error (.ofString s)) p =
        .ok (some (OwnedCObject.string_lossy s))) ∧
    (∀ obj s p, catch_unwind_panic_as_cobject obj (fun _ => .error (.ofStaticStr s)) p =
        .ok (some (OwnedCObject.string_lossy s))) ∧
    (∀ obj p, catch_unwind_panic_as_cobject obj (fun _ => .error .other) p =
        .ok (some (OwnedCObject.string_lossy PANIC_FALLBACK_MSG))) ∧
    (∀ obj f p, ∃ r, catch_unwind_panic_as_cobject obj f p = .ok r) ∧
    (∀ s : List Nat, (OwnedCObject.string_lossy s).type_ = .Dart_CObject_kString) ∧
    (∀ s : List Nat, 0 ∉ s →
      CObjectMut.as_string ⟨⟩ (OwnedCObject.string_lossy s) = some s) := by
  refine ⟨?_, ?_, ?_, ?_, ?_, ?_⟩
  · intro obj s p
    simp only [catch_unwind_panic_as_cobject]
    cases p obj (OwnedCObject.string_lossy s) <;> rfl
  · intro obj s p
    simp only [catch_unwind_panic_as_cobject]
    cases p obj (OwnedCObject.string_lossy s) <;> rfl
  · intro obj p
    simp only [catch_unwind_panic_as_cobject]
    cases p obj (OwnedCObject.string_lossy PANIC_FALLBACK_MSG) <;> rfl
  · intro obj f p
    simp only [catch_unwind_panic_as_cobject]
    cases f obj with
    | ok u => exact ⟨none, rfl⟩
    | error err =>
      cases err with
      | ofString s =>
        dsimp only
        cases p obj (OwnedCObject.string_lossy s) <;> exact ⟨_, rfl⟩
      | ofStaticStr s =>
        dsimp only
        cases p obj (OwnedCObject.string_lossy s) <;> exact ⟨_, rfl⟩
      | other =>
        dsimp only
        cases p obj (OwnedCObject.string_lossy PANIC_FALLBACK_MSG) <;> exact ⟨_, rfl⟩
  · intro s
    rfl
  · intro s h
    have e1 : CObjectMut.as_string ⟨⟩ (OwnedCObject.string_lossy s) =
        some ((s.takeWhile (fun b => b ≠ 0)).takeWhile (fun b => b ≠ 0)) := rfl
    rw [e1, List.takeWhile_idem, takeWhile_ne_zero_of_not_mem s h]

/-- C5 witness: a NUL-free panic message (`"hi"`, bytes `[104, 105]`) read
back verbatim from the diagnostic object. -/
theorem C5_witness :
    (0 : Nat) ∉ [104, 105] ∧
    CObjectMut.as_string ⟨⟩ (OwnedCObject.string_lossy [104, 105]) = some [104, 105] :=
  ⟨by decide, C5_panic_containment.2.2.2.2.2 [104, 105] (by decide)⟩

/-- C4 witness: a reported-failure post of a concrete ExternalTypedData
object leaves it unchanged in both pipelines. -/
theorem C4_witness :
    (some false : Option Bool) ≠ some true ∧
    SendPort.post_cobject_ref (some false) exampleEtd = some (.error ⟨⟩, exampleEtd) ∧
    SendPort.post_cobject_mut (some false) exampleEtd = (.error ⟨⟩, exampleEtd) :=
  ⟨by decide,
    (C4_failed_post_leaves_object_unchanged (some false) exampleEtd (by decide)).1,
    (C4_failed_post_leaves_object_unchanged (some false) exampleEtd (by decide)).2⟩

/-- C6: for every known object kind and typed-data element kind, converting
to the raw tag and classifying back yields `Ok` of the same kind; every raw
tag outside the known ranges — including the reserved `kUnsupported`,
`kNumberOfTypes` and `kInvalid` sentinels — classifies to the typed
unknown-tag error carrying that tag (classification is total, it never
panics). -/
theorem C6_tag_registry_round_trip :
    (∀ k : CObjectType, CObjectType.tryFrom k.toRaw = .ok k) ∧
    (∀ k : TypedDataType, TypedDataType.tryFrom k.toRaw = .ok k) ∧
    (∀ v : Dart_CObject_Type, v.val < 0 ∨ 10 < v.val →
      CObjectType.tryFrom v = .error ⟨v⟩) ∧
    (∀ v : Dart_TypedData_Type, v.val < 0 ∨ 14 < v.val →
      TypedDataType.tryFrom v = .error ⟨v⟩) ∧
    CObjectType.tryFrom .Dart_CObject_kUnsupported =
      .error ⟨.Dart_CObject_kUnsupported⟩ ∧
    CObjectType.tryFrom .Dart_CObject_kNumberOfTypes =
      .error ⟨.Dart_CObject_kNumberOfTypes⟩ ∧
    TypedDataType.tryFrom .Dart_TypedData_kInvalid =
      .error ⟨.Dart_TypedData_kInvalid⟩ := by
  refine ⟨?_, ?_, ?_, ?_, rfl, rfl, rfl⟩
  · intro k
    cases k <;> rfl
  · intro k
    cases k <;> rfl
  · intro v h
    obtain ⟨n⟩ := v
    simp only [Dart_CObject_Type.val] at h
    have hne : ∀ m : Int, n ≠ m → ¬ ((⟨n⟩ : Dart_CObject_Type) = ⟨m⟩) :=
      fun m hm he => hm (congrArg Dart_CObject_Type.val he)
    unfold CObjectType.tryFrom
    have hne0 : ¬ ((⟨n⟩ : Dart_CObject_Type) = Dart_CObject_Type.Dart_CObject_kNull) :=
      hne 0 (by omega)
    have hne1 : ¬ ((⟨n⟩ : Dart_CObject_Type) = Dart_CObject_Type.Dart_CObject_kBool) :=
      hne 1 (by omega)
    have hne2 : ¬ ((⟨n⟩ : Dart_CObject_Type) = Dart_CObject_Type.Dart_CObject_kInt32) :=
      hne 2 (by omega)
    have hne3 : ¬ ((⟨n⟩ : Dart_CObject_Type) = Dart_CObject_Type.Dart_CObject_kInt64) :=
      hne 3 (by omega)
    have hne4 : ¬ ((⟨n⟩ : Dart_CObject_Type) = Dart_CObject_Type.Dart_CObject_kDouble) :=
      hne 4 (by omega)
    have hne5 : ¬ ((⟨n⟩ : Dart_CObject_Type) = Dart_CObject_Type.Dart_CObject_kString) :=
      hne 5 (by omega)
    have hne6 : ¬ ((⟨n⟩ : Dart_CObject_Type) = Dart_CObject_Type.Dart_CObject_kArray) :=
      hne 6 (by omega)
    have hne7 : ¬ ((⟨n⟩ : Dart_CObject_Type) = Dart_CObject_Type.Dart_CObject_kTypedData) :=
      hne 7 (by omega)
    have hne8 : ¬ ((⟨n⟩ : Dart_CObject_Type) = Dart_CObject_Type.Dart_CObject_kExternalTypedData) :=
      hne 8 (by omega)
    have hne9 : ¬ ((⟨n⟩ : Dart_CObject_Type) = Dart_CObject_Type.Dart_CObject_kSendPort) :=
      hne 9 (by omega)
    have hne10 : ¬ ((⟨n⟩ : Dart_CObject_Type) = Dart_CObject_Type.Dart_CObject_kCapability) :=
      hne 10 (by omega)
    rw [if_neg hne0, if_neg hne1, if_neg hne2, if_neg hne3, if_neg hne4, if_neg hne5, if_neg hne6, if_neg hne7, if_neg hne8, if_neg hne9, if_neg hne10]
  · intro v h
    obtain ⟨n⟩ := v
    simp only [Dart_TypedData_Type.val] at h
    have hne : ∀ m : Int, n ≠ m → ¬ ((⟨n⟩ : Dart_TypedData_Type) = ⟨m⟩) :=
      fun m hm he => hm (congrArg Dart_TypedData_Type.val he)
    unfold TypedDataType.tryFrom
    have hne0 : ¬ ((⟨n⟩ : Dart_TypedData_Type) = Dart_TypedData_Type.Dart_TypedData_kByteData) :=
      hne 0 (by omega)
    have hne1 : ¬ ((⟨n⟩ : Dart_TypedData_Type) = Dart_TypedData_Type.Dart_TypedData_kInt8) :=
      hne 1 (by omega)
    have hne2 : ¬ ((⟨n⟩ : Dart_TypedData_Type) = Dart_TypedData_Type.Dart_TypedData_kUint8) :=
      hne 2 (by omega)
    have hne3 : ¬ ((⟨n⟩ : Dart_TypedData_Type) = Dart_TypedData_Type.Dart_TypedData_kUint8Clamped) :=
      hne 3 (by omega)
    have hne4 : ¬ ((⟨n⟩ : Dart_TypedData_Type) = Dart_TypedData_Type.Dart_TypedData_kInt16) :=
      hne 4 (by omega)
    have hne5 : ¬ ((⟨n⟩ : Dart_TypedData_Type) = Dart_TypedData_Type.Dart_TypedData_kUint16) :=
      hne 5 (by omega)
    have hne6 : ¬ ((⟨n⟩ : Dart_TypedData_Type) = Dart_TypedData_Type.Dart_TypedData_kInt32) :=
      hne 6 (by omega)
    have hne7 : ¬ ((⟨n⟩ : Dart_TypedData_Type) = Dart_TypedData_Type.Dart_TypedData_kUint32) :=
      hne 7 (by omega)
    have hne8 : ¬ ((⟨n⟩ : Dart_TypedData_Type) = Dart_TypedData_Type.Dart_TypedData_kInt64) :=
      hne 8 (by omega)
    have hne9 : ¬ ((⟨n⟩ : Dart_TypedData_Type) = Dart_TypedData_Type.Dart_TypedData_kUint64) :=
      hne 9 (by omega)
    have hne10 : ¬ ((⟨n⟩ : Dart_TypedData_Type) = Dart_TypedData_Type.Dart_TypedData_kFloat32) :=
      hne 10 (by omega)
    have hne11 : ¬ ((⟨n⟩ : Dart_TypedData_Type) = Dart_TypedData_Type.Dart_TypedData_kFloat64) :=
      hne 11 (by omega)
    have hne12 : ¬ ((⟨n⟩ : Dart_TypedData_Type) = Dart_TypedData_Type.Dart_TypedData_kInt32x4) :=
      hne 12 (by omega)
    have hne13 : ¬ ((⟨n⟩ : Dart_TypedData_Type) = Dart_TypedData_Type.Dart_TypedData_kFloat32x4) :=
      hne 13 (by omega)
    have hne14 : ¬ ((⟨n⟩ : Dart_TypedData_Type) = Dart_TypedData_Type.Dart_TypedData_kFloat64x2) :=
      hne 14 (by omega)
    rw [if_neg hne0, if_neg hne1, if_neg hne2, if_neg hne3, if_neg hne4, if_neg hne5, if_neg hne6, if_neg hne7, if_neg hne8, if_neg hne9, if_neg hne10, if_neg hne11, if_neg hne12, if_neg hne13, if_neg hne14]

/-- C6 witness: the unknown-tag law applied at the concrete out-of-range
raw tags `99`. -/
theorem C6_witness :
    ((⟨99⟩ : Dart_CObject_Type).val < 0 ∨ 10 < (⟨99⟩ : Dart_CObject_Type).val) ∧
    CObjectType.tryFrom ⟨99⟩ = .error ⟨⟨99⟩⟩ ∧
    ((⟨99⟩ : Dart_TypedData_Type).val < 0 ∨ 14 < (⟨99⟩ : Dart_TypedData_Type).val) ∧
    TypedDataType.tryFrom ⟨99⟩ = .error ⟨⟨99⟩⟩ :=
  ⟨Or.inr (by decide), C6_tag_registry_round_trip.2.2.1 ⟨99⟩ (Or.inr (by decide)),
    Or.inr (by decide), C6_tag_registry_round_trip.2.2.2.1 ⟨99⟩ (Or.inr (by decide))⟩

/-- C7: the string constructor fails with the embedded-NUL error exactly
when the byte sequence contains a NUL, and otherwise builds an object that
reads back verbatim; the lossy constructor always succeeds and reads back
as the prefix up to (excluding) the first NUL. -/
theorem C7_string_nul_handling :
    (∀ s : List Nat, 0 ∈ s → OwnedCObject.string s = .error ⟨s.indexOf 0⟩) ∧
    (∀ s : List Nat, 0 ∉ s →
      OwnedCObject.string s = .ok (.mk .Dart_CObject_kString (.as_string s)) ∧
      CObjectMut.as_string ⟨⟩ (.mk .Dart_CObject_kString (.as_string s)) = some s) ∧
    (∀ s : List Nat, CObjectMut.as_string ⟨⟩ (OwnedCObject.string_lossy s) =
      some (s.takeWhile (fun b => b ≠ 0))) := by
  refine ⟨?_, ?_, ?_⟩
  · intro s h
    simp [OwnedCObject.string, h]
  · intro s h
    refine ⟨by simp [OwnedCObject.string, h], ?_⟩
    have e1 : CObjectMut.as_string ⟨⟩ (.mk .Dart_CObject_kString (.as_string s)) =
        some (s.takeWhile (fun b => b ≠ 0)) := rfl
    rw [e1, takeWhile_ne_zero_of_not_mem s h]
  · intro s
    have e1 : CObjectMut.as_string ⟨⟩ (OwnedCObject.string_lossy s) =
        some ((s.takeWhile (fun b => b ≠ 0)).takeWhile (fun b => b ≠ 0)) := rfl
    rw [e1, List.takeWhile_idem]

/-- C7 witness: `"a\0b"` (bytes `[97, 0, 98]`) is rejected with the NUL at
index 1, while the lossy constructor yields `"a"`; the NUL-free `"ab"`
round-trips. -/
theorem C7_witness :
    (0 : Nat) ∈ [97, 0, 98] ∧
    OwnedCObject.string [97, 0, 98] = .error ⟨1⟩ ∧
    CObjectMut.as_string ⟨⟩ (OwnedCObject.string_lossy [97, 0, 98]) = some [97] ∧
    (0 : Nat) ∉ [97, 98] ∧
    CObjectMut.as_string ⟨⟩ (.mk .Dart_CObject_kString (.as_string [97, 98])) =
      some [97, 98] :=
  ⟨by decide, C7_string_nul_handling.1 [97, 0, 98] (by decide),
    by rw [C7_string_nul_handling.2.2 [97, 0, 98]]; decide,
    by decide, (C7_string_nul_handling.2.1 [97, 98] (by decide)).2⟩

/-- C8: the three raw-port conversions return `none` exactly on the
`ILLEGAL_PORT` sentinel and otherwise wrap the id as given (an `Option`,
never an error); `send_port_from_raw` delegates with an unset origin. -/
theorem C8_illegal_port_rejection (rt : DartRuntime) (p o : DartPortId) :
    (rt.send_port_from_raw_with_origin p o = none ↔ p = ILLEGAL_PORT) ∧
    (p ≠ ILLEGAL_PORT →
      rt.send_port_from_raw_with_origin p o = some { port := p, origin := o }) ∧
    rt.send_port_from_raw p = rt.send_port_from_raw_with_origin p ILLEGAL_PORT ∧
    (rt.native_recv_port_from_raw p = none ↔ p = ILLEGAL_PORT) ∧
    (p ≠ ILLEGAL_PORT → rt.native_recv_port_from_raw p =
      some { inner := { port := p, origin := ILLEGAL_PORT } }) := by
  refine ⟨?_, ?_, rfl, ?_, ?_⟩
  · simp only [DartRuntime.send_port_from_raw_with_origin]
    split_ifs with hp
    · simp [hp]
    · simp [not_not.mp hp]
  · intro hp
    simp [DartRuntime.send_port_from_raw_with_origin, hp]
  · simp only [DartRuntime.native_recv_port_from_raw]
    split_ifs with hp
    · simp [hp]
    · simp [not_not.mp hp]
  · intro hp
    simp [DartRuntime.native_recv_port_from_raw, hp]

/-- C8 witness: the sentinel id yields `none`, a non-sentinel id `5` is
wrapped carrying exactly that id. -/
theorem C8_witness :
    DartRuntime.send_port_from_raw_with_origin ⟨⟩ ILLEGAL_PORT 0 = none ∧
    ((5 : DartPortId) ≠ ILLEGAL_PORT ∧
      DartRuntime.send_port_from_raw_with_origin ⟨⟩ 5 0 = some { port := 5, origin := 0 } ∧
      DartRuntime.native_recv_port_from_raw ⟨⟩ 5 =
        some { inner := { port := 5, origin := ILLEGAL_PORT } }) :=
  ⟨(C8_illegal_port_rejection ⟨⟩ ILLEGAL_PORT 0).1.mpr rfl,
    by decide,
    (C8_illegal_port_rejection ⟨⟩ 5 0).2.1 (by decide),
    (C8_illegal_port_rejection ⟨⟩ 5 0).2.2.2.2 (by decide)⟩

/-- C9: once the cell stores an outcome, every further initialization call
returns that stored outcome without a fresh foreign attempt; the query path
returns `InitNotYetCalled` exactly when no attempt has happened, and never
confuses it with a stored `InitFailed`. -/
theorem C9_init_once_gate :
    (∀ (ret : Int) (r : Except InitializationFailed DartRuntime),
      initialize_dart_api_dl ret (some r) = (r, some r, false)) ∧
    DartRuntime.instance none = .error .InitNotYetCalled ∧
    (∀ st : InitState, st.Reachable →
      (DartRuntime.instance st = .error .InitNotYetCalled ↔ st = none)) := by
  refine ⟨fun ret r => rfl, rfl, ?_⟩
  intro st h
  rcases h with rfl | ⟨ret, rfl⟩
  · simp [DartRuntime.instance]
  · simp only [initialize_dart_api_dl, DartRuntime.instance]
    constructor
    · intro he
      by_cases hr : ret = 0 <;> simp [hr] at he
    · intro he
      simp at he

/-- C9 witness: after a failed foreign attempt the stored outcome is
`InitFailed`, the query path does not report `InitNotYetCalled`, and a
repeated initialization returns the stored failure without calling the
foreign initializer again. -/
theorem C9_witness :
    InitState.Reachable ((initialize_dart_api_dl 1 none).2.1) ∧
    ¬ (DartRuntime.instance ((initialize_dart_api_dl 1 none).2.1) =
        .error .InitNotYetCalled) ∧
    initialize_dart_api_dl 1 (some (.error .InitFailed)) =
      (.error .InitFailed, some (.error .InitFailed), false) := by
  refine ⟨Or.inr ⟨1, rfl⟩, ?_, C9_init_once_gate.1 1 (.error .InitFailed)⟩
  intro he
  have h2 := (C9_init_once_gate.2.2 _ (Or.inr ⟨1, rfl⟩)).mp he
  simp [initialize_dart_api_dl] at h2

/-- C10: the message-dispatch wrapper reconstructs a receive-port handle
from the raw destination id and leaks it after the handler returns, so a
dispatch performs no foreign call of its own (in particular no close); the
close primitive is called exactly by the drop of a non-leaked handle. -/
theorem C10_dispatch_leaks_port :
    (∀ (st : InitState) (ourself : DartPortId), handle_message st ourself [] = []) ∧
    (∀ (st : InitState) (ourself : DartPortId) (h : List ForeignCall),
      handle_message st ourself h = h ∨ handle_message st ourself h = []) ∧
    (∀ p : NativeRecvPort, NativeRecvPort.leak p = (p.inner, [])) ∧
    (∀ p : NativeRecvPort,
      NativeRecvPort.drop_calls true p = [.closeNativePort p.inner.as_raw.1]) ∧
    (∀ p : NativeRecvPort, NativeRecvPort.drop_calls false p = []) := by
  refine ⟨?_, ?_, fun p => rfl, fun p => rfl, fun p => rfl⟩
  · intro st ourself
    simp only [handle_message]
    cases DartRuntime.instance st with
    | error e => rfl
    | ok rt =>
      simp only [DartRuntime.native_recv_port_from_raw]
      split_ifs <;> rfl
  · intro st ourself h
    simp only [handle_message]
    cases DartRuntime.instance st with
    | error e => exact Or.inr rfl
    | ok rt =>
      simp only [DartRuntime.native_recv_port_from_raw]
      split_ifs
      · exact Or.inl (by simp [NativeRecvPort.leak])
      · exact Or.inr rfl

end DartApiDl
